import Mathlib

/-!
Verification of the AI4Paper pipeline server (`Sever/`).

The development shallowly embeds, from the Python source:

* `Sever/app.py` — the step-gated pipeline orchestrator (`STEP_OUTPUT_PATHS`,
  `STEPS`, `PIPELINES`, `step_output_exists`, `detect_selected_count`, and the
  step loop of `main`);
* `Sever/api.py` — the run controller (log ring buffer, single-flight trigger
  guard as a lock-granular transition system), schedule persistence and the
  scheduler tick;
* the five per-user LLM configuration resolvers in `Sever/Controller/`
  (`paper_summary.make_client_for_user`, `summary_limit.build_effective_cfg`,
  `llm_select_theme.make_client_for_user`, `pdf_info._resolve_llm_for_user`,
  `paper_assets.make_client_for_user`).

Modelling conventions: Python `None` becomes `Option`, numeric config values
(temperatures, token budgets) are modelled as `Int` (their arithmetic is never
claim-relevant, only their presence), Python string methods are modelled by
the executable `py*` helpers below, filesystem and subprocess effects are
oracles passed in as arguments, and `raise SystemExit` becomes
`Except.error`.
-/

namespace AI4Paper

/-! ### Python semantics helpers -/

/-- Python `a or b` for an optional string `a`: yields `b` when `a` is `None`
or the empty string (both falsy), otherwise the string in `a`. -/
def pyOrS (a : Option String) (b : String) : String :=
  match a with
  | none => b
  | some s => if s = "" then b else s

/-- Python truthiness of an optional integer: `None` and `0` are falsy. -/
def truthyI (a : Option Int) : Bool :=
  match a with
  | none => false
  | some n => n != 0

/-- Python `a or b` on optional integers (used for
`ucfg.get("<module>_llm_preset_id") or ucfg.get("llm_preset_id")`):
returns `b` as-is when `a` is falsy. -/
def pyOrI (a b : Option Int) : Option Int :=
  if truthyI a then a else b

/-- Python `str.strip()`: drop leading and trailing whitespace. -/
def pyStrip (s : String) : String :=
  String.mk (((s.data.dropWhile Char.isWhitespace).reverse.dropWhile Char.isWhitespace).reverse)

/-- Python `(v or dflt).strip()` for an optional string `v`. -/
def orStrip (v : Option String) (dflt : String) : String :=
  pyStrip (pyOrS v dflt)

/-- Python `s.startswith(pre)`. -/
def pyStartsWith (s pre : String) : Bool :=
  pre.data.isPrefixOf s.data

/-- Python `s.endswith(suf)`. -/
def pyEndsWith (s suf : String) : Bool :=
  suf.data.isSuffixOf s.data

/-- Worker for `pySplit`, structurally recursive on a fuel bound that
dominates the input length: emit the accumulated chunk at each
(non-overlapping, leftmost) occurrence of the separator. -/
def pySplitAux (sep : List Char) : Nat → List Char → List Char → List (List Char)
  | 0, acc, _ => [acc.reverse]
  | _ + 1, acc, [] => [acc.reverse]
  | n + 1, acc, c :: cs =>
    if sep ≠ [] ∧ sep.isPrefixOf (c :: cs) then
      acc.reverse :: pySplitAux sep n [] ((c :: cs).drop sep.length)
    else pySplitAux sep n (c :: acc) cs

/-- Python `s.split(sep)` for a non-empty separator. -/
def pySplit (s sep : String) : List String :=
  (pySplitAux sep.data (s.data.length + 1) [] s.data).map String.mk

/-- Value of a non-empty all-digit character list. -/
def digitsVal (ds : List Char) : Option Nat :=
  if ds = [] then none
  else if ds.all Char.isDigit then
    some (ds.foldl (fun a c => a * 10 + (c.toNat - 48)) 0)
  else none

/-- Python `int(s)` on the inputs this code base feeds it (a decimal
literal with optional sign and surrounding whitespace); failure is `none`
(the caller catches `ValueError` and returns `None`). -/
def pyInt? (s : String) : Option Int :=
  match (pyStrip s).data with
  | '-' :: ds => (digitsVal ds).map (fun n => -(n : Int))
  | '+' :: ds => (digitsVal ds).map (fun n => (n : Int))
  | ds => (digitsVal ds).map (fun n => (n : Int))

/-- Model of `os.path.join` on POSIX, for the path literals of `app.py`. -/
def ospathJoin (parts : List String) : String :=
  String.intercalate "/" parts

/-! ### `Sever/app.py`: step registry and output markers -/

/-- Constant `STEP_OUTPUT_PATHS` of `app.py`: per-step output path (file or dir) that
indicates "done" for a given date; a step with no entry is never skipped by
the output check.  `root` stands for the runtime `ROOT` directory and
`"data"` is `DATA_ROOT`. -/
def STEP_OUTPUT_PATHS (root : String) : List (String × (String → String)) :=
  [ ("arxiv_search", fun d => ospathJoin [root, "data", "arxivList", "md", d ++ ".md"]),
    ("paperList_remove_duplications", fun d => ospathJoin [root, "data", "paperList_remove_duplications", d ++ ".json"]),
    ("llm_select_theme", fun d => ospathJoin [root, "data", "llm_select_theme", d ++ ".json"]),
    ("paper_theme_filter", fun d => ospathJoin [root, "data", "paper_theme_filter", d ++ ".json"]),
    ("pdf_download", fun d => ospathJoin [root, "data", "raw_pdf", d, "_manifest.json"]),
    ("pdf_split", fun d => ospathJoin [root, "data", "preview_pdf", d, "_manifest.json"]),
    ("pdfsplite_to_minerU", fun d => ospathJoin [root, "data", "preview_pdf_to_mineru", d, "_manifest.json"]),
    ("pdf_info", fun d => ospathJoin [root, "data", "pdf_info", d ++ ".json"]),
    ("instutions_filter", fun d => ospathJoin [root, "data", "instutions_filter", d, d ++ ".json"]),
    ("selectpaper", fun d => ospathJoin [root, "data", "selectedpaper", d, "_manifest.json"]),
    ("selectedpaper_to_mineru", fun d => ospathJoin [root, "data", "selectedpaper_to_mineru", d, "_manifest.json"]),
    ("paper_summary", fun d => ospathJoin [root, "data", "paper_summary", "single", d]),
    ("summary_limit", fun d => ospathJoin [root, "data", "summary_limit", "single", d]),
    ("select_image", fun d => ospathJoin [root, "data", "select_image", d, "select_image_" ++ d ++ ".json"]),
    ("file_collect", fun d => ospathJoin [root, "data", "file_collect", d]),
    ("paper_assets", fun d => ospathJoin [root, "data", "paper_assets", d ++ ".jsonl"]) ]

/-- Constant `STEPS` of `app.py`, reduced to each step's controller script path
(every command is `[sys.executable, "-u", <script>]`). -/
def STEPS (root : String) : List (String × String) :=
  [ ("arxiv_search", ospathJoin [root, "Controller", "arxiv_search04.py"]),
    ("paperList_remove_duplications", ospathJoin [root, "Controller", "paperList_remove_duplications.py"]),
    ("llm_select_theme", ospathJoin [root, "Controller", "llm_select_theme.py"]),
    ("paper_theme_filter", ospathJoin [root, "Controller", "paper_theme_filter.py"]),
    ("pdf_download", ospathJoin [root, "Controller", "pdf_download.py"]),
    ("pdf_split", ospathJoin [root, "Controller", "pdf_split.py"]),
    ("pdfsplite_to_minerU", ospathJoin [root, "Controller", "pdfsplite_to_minerU.py"]),
    ("pdf_info", ospathJoin [root, "Controller", "pdf_info.py"]),
    ("instutions_filter", ospathJoin [root, "Controller", "instutions_filter.py"]),
    ("selectpaper", ospathJoin [root, "Controller", "selectpaper.py"]),
    ("selectedpaper_to_mineru", ospathJoin [root, "Controller", "selectedpaper_to_mineru.py"]),
    ("paper_summary", ospathJoin [root, "Controller", "paper_summary.py"]),
    ("summary_limit", ospathJoin [root, "Controller", "summary_limit.py"]),
    ("select_image", ospathJoin [root, "Controller", "select_image.py"]),
    ("file_collect", ospathJoin [root, "Controller", "file_collect.py"]),
    ("paper_assets", ospathJoin [root, "Controller", "paper_assets.py"]),
    ("zotero_push", ospathJoin [root, "Controller", "zotero_push.py"]) ]

/-- Constant `PIPELINES` of `app.py`: two named pipelines, both listing the same
17 steps. -/
def PIPELINES : List (String × List String) :=
  [ ("default",
     [ "arxiv_search", "paperList_remove_duplications", "llm_select_theme",
       "paper_theme_filter", "pdf_download", "pdf_split", "pdfsplite_to_minerU",
       "pdf_info", "instutions_filter", "selectpaper", "selectedpaper_to_mineru",
       "paper_summary", "summary_limit", "select_image", "file_collect",
       "paper_assets", "zotero_push" ]),
    ("daily",
     [ "arxiv_search", "paperList_remove_duplications", "llm_select_theme",
       "paper_theme_filter", "pdf_download", "pdf_split", "pdfsplite_to_minerU",
       "pdf_info", "instutions_filter", "selectpaper", "selectedpaper_to_mineru",
       "paper_summary", "summary_limit", "select_image", "file_collect",
       "paper_assets", "zotero_push" ]) ]

/-- The filesystem as seen by `app.py`, as two oracles for
`os.path.isfile` and `os.path.isdir`. -/
structure FileSystem where
  isFile : String → Bool
  isDir : String → Bool

/-- Function `step_output_exists(step, date_str)` from `app.py`: a step with no entry
in `STEP_OUTPUT_PATHS` returns `False`; otherwise the marker path exists when
it is a file or a directory. -/
def step_output_exists (fs : FileSystem) (root step date_str : String) : Bool :=
  match (STEP_OUTPUT_PATHS root).lookup step with
  | none => false
  | some f =>
    let path := f date_str
    if fs.isFile path then true
    else if fs.isDir path then true
    else false

/-! ### `Sever/app.py`: `detect_selected_count` -/

/-- One file of the `data/arxivList/md` directory: name, `os.path.getmtime`
value, and content lines. -/
structure MdFile where
  name : String
  mtime : Int
  lines : List String

/-- The inner scan of `detect_selected_count`: the first stripped line that
starts with `- Selected` and splits on `**` into at least two parts decides
the result (`int` failure yields `None` immediately); a matching prefix with
fewer than two parts keeps scanning. -/
def scanSelected : List String → Option Int
  | [] => none
  | line :: rest =>
    let l := pyStrip line
    if pyStartsWith l "- Selected" then
      match pySplit l "**" with
      | _ :: p1 :: _ => pyInt? p1
      | _ => scanSelected rest
    else scanSelected rest

/-- Function `detect_selected_count()` from `app.py`.  `mdDir` is the state of
`ROOT/data/arxivList/md` at the moment of the call (`none` when the
directory does not exist): the function keeps the `.md` files, picks
`files[0]` of the stable mtime-descending sort — that is, the first file
attaining the maximal mtime — and scans its lines. -/
def detect_selected_count (mdDir : Option (List MdFile)) : Option Int :=
  match mdDir with
  | none => none
  | some files =>
    match files.filter (fun f => pyEndsWith f.name ".md") with
    | [] => none
    | f :: rest =>
      let latest := rest.foldl (fun best x => if best.mtime < x.mtime then x else best) f
      scanSelected latest.lines

/-! ### `Sever/app.py`: the step loop of `main` -/

/-- One orchestration event: a `SKIP step:` record, or an actual subprocess
invocation (`RUN step:` followed by `run_step`). -/
inductive Event where
  | skip (step : String)
  | run (step : String)
deriving DecidableEq, Repr

/-- How the step loop of `main` ends. -/
inductive Outcome where
  /-- the loop reached the end of the step list -/
  | completed
  /-- `arxiv_search` ran and `detect_selected_count()` returned `0`:
  `main` returns normally -/
  | earlyStopZero
  /-- `subprocess.run(check=True)` raised on a non-zero exit code,
  aborting the run -/
  | stepFailed (step : String) (code : Int)
  /-- `run_step` raised `SystemExit("Unknown step: ...")` -/
  | unknownStep (step : String)
deriving DecidableEq, Repr

/-- The step loop of `main` in `app.py`.  `exitCode` is the subprocess oracle
(the exit code a step's subprocess would report if invoked), `mdDir` the
state of the arxiv markdown directory when `detect_selected_count` is called.
For each step in order: an existing output marker records a SKIP and
continues; otherwise the step is run, a non-zero exit aborts the run, and
immediately after a successful `arxiv_search` a detected selected-count of
exactly `0` ends the run normally. -/
def runSteps (fs : FileSystem) (exitCode : String → Int)
    (mdDir : Option (List MdFile)) (root date : String) :
    List String → List Event × Outcome
  | [] => ([], .completed)
  | step :: rest =>
    if step_output_exists fs root step date then
      let r := runSteps fs exitCode mdDir root date rest
      (.skip step :: r.1, r.2)
    else
      match (STEPS root).lookup step with
      | none => ([], .unknownStep step)
      | some _ =>
        let code := exitCode step
        if code ≠ 0 then ([.run step], .stepFailed step code)
        else if step = "arxiv_search" ∧ detect_selected_count mdDir = some 0 then
          ([.run step], .earlyStopZero)
        else
          let r := runSteps fs exitCode mdDir root date rest
          (.run step :: r.1, r.2)

/-- Pipeline lookup and Zotero filtering of `main`: unknown pipeline names
fail fast; when the `Zo` flag is not `"T"` the `zotero_push` step is removed
from the step list. -/
def pipeline_steps (pipeline zo_value : String) : Option (List String) :=
  match PIPELINES.lookup pipeline with
  | none => none
  | some steps =>
    some (if zo_value ≠ "T" then steps.filter (fun s => s ≠ "zotero_push") else steps)

/-- Function `main` of `app.py` after CLI/env parsing: resolve the pipeline, filter
`zotero_push` by the `Zo` flag, and run the step loop.  `none` models
`SystemExit("Unknown pipeline: ...")`. -/
def app_main (fs : FileSystem) (exitCode : String → Int)
    (mdDir : Option (List MdFile)) (root date pipeline zo_value : String) :
    Option (List Event × Outcome) :=
  (pipeline_steps pipeline zo_value).map (runSteps fs exitCode mdDir root date)

/-- The process exit status of `app.py` for a finished step loop: a normal
or early-stopped run exits `0`; an uncaught `CalledProcessError` or
`SystemExit(message)` exits `1`. -/
def mainExitCode : Outcome → Int
  | .completed => 0
  | .earlyStopZero => 0
  | .stepFailed _ _ => 1
  | .unknownStep _ => 1

/-! ### `Sever/api.py`: run-controller log buffer -/

/-- The body of the log-append block in `_run_pipeline_thread`: append the
timestamped line, then `if len(logs) > 500: logs = logs[-500:]`. -/
def appendLog (logs : List String) (line : String) : List String :=
  let l := logs ++ [line]
  if l.length > 500 then l.drop (l.length - 500) else l

/-- The timestamp prefix applied to each captured subprocess line:
`f"[{datetime.now().strftime('%H:%M:%S')}] {line}"`, with the wall-clock
string supplied by the caller. -/
def stampLine (ts line : String) : String :=
  "[" ++ ts ++ "] " ++ line

/-- The stdout loop of `_run_pipeline_thread`: starting from the buffer set
at run reset, append every emitted `(timestamp, line)` pair through
`appendLog`. -/
def workerLogs (init : List String) (emitted : List (String × String)) : List String :=
  emitted.foldl (fun logs p => appendLog logs (stampLine p.1 p.2)) init

/-! ### `Sever/api.py`: single-flight trigger guard

The trigger endpoint, the worker-thread initialisation and the worker's
`finally` block each hold `_pipeline_lock` for one contiguous block, so the
shared state is modelled as a transition system whose atomic actions are
exactly those lock-protected blocks.  `thread.start()` itself touches no
shared state, so the conflict check and the spawn form a single atomic
trigger action; the spawned worker sets `running = True` only later, in its
own first lock-protected block. -/

/-- The shared `_pipeline_state`, restricted to the fields the single-flight
guard reads and writes, plus bookkeeping of the worker threads themselves:
`pendingWorkers` counts threads spawned by a trigger whose initialisation
block has not run yet, `activeWorkers` counts workers between their
initialisation block and their `finally` block. -/
structure RunState where
  running : Bool
  activeWorkers : Nat
  pendingWorkers : Nat
deriving DecidableEq, Repr

/-- Result of `POST /api/admin/pipeline/run`. -/
inductive TriggerResult where
  /-- a worker thread was started -/
  | accepted
  /-- `HTTPException(status_code=409)` -/
  | rejectedConflict
deriving DecidableEq, Repr

/-- Endpoint `api_admin_run_pipeline`: under the lock, a state with `running=True`
raises 409 and changes nothing (the request is not queued); otherwise a
worker thread is spawned. -/
def trigger (s : RunState) : RunState × TriggerResult :=
  if s.running then (s, .rejectedConflict)
  else ({ s with pendingWorkers := s.pendingWorkers + 1 }, .accepted)

/-- The first lock-protected block of `_run_pipeline_thread`: the spawned
worker sets `running = True` and resets the run fields, unconditionally. -/
def workerInit (s : RunState) : RunState :=
  { running := true,
    activeWorkers := s.activeWorkers + 1,
    pendingWorkers := s.pendingWorkers - 1 }

/-- The `finally` block of `_run_pipeline_thread`: the worker sets
`running = False` and records the outcome. -/
def workerFinish (s : RunState) : RunState :=
  { s with running := false, activeWorkers := s.activeWorkers - 1 }

/-- Reachability of shared states from process start (no run, no workers)
under any interleaving of trigger requests and worker blocks. -/
inductive Reach : RunState → Prop where
  | init : Reach ⟨false, 0, 0⟩
  | trigger {s : RunState} : Reach s → Reach (trigger s).1
  | workerInit {s : RunState} : Reach s → 0 < s.pendingWorkers → Reach (workerInit s)
  | workerFinish {s : RunState} : Reach s → 0 < s.activeWorkers → Reach (workerFinish s)

/-! ### `Sever/api.py`: schedule persistence and scheduler tick -/

/-- A JSON-able value of the schedule-config file. -/
inductive JVal where
  | b (v : Bool)
  | n (v : Int)
  | s (v : String)
  | null
deriving DecidableEq, Repr

/-- The request body of `POST /api/admin/schedule` (`ScheduleConfigBody`). -/
structure ScheduleBody where
  enabled : Bool
  hour : Nat
  minute : Nat
  pipeline : String
  sllm : Option Int
  zo : Option String
deriving DecidableEq, Repr

/-- The dict `api_admin_update_schedule` passes to `_save_schedule_config`,
i.e. exactly what is written to `database/schedule_config.json`. -/
def savedScheduleConfig (b : ScheduleBody) : List (String × JVal) :=
  [ ("enabled", .b b.enabled),
    ("hour", .n b.hour),
    ("minute", .n b.minute),
    ("pipeline", .s b.pipeline),
    ("sllm", match b.sllm with | none => .null | some v => .n v),
    ("zo", .s (pyOrS b.zo "F")) ]

/-- The in-memory `_scheduler_state` fields the tick reads and writes. -/
structure SchedulerState where
  enabled : Bool
  hour : Nat
  minute : Nat
  pipeline : String
  sllm : Option Int
  zo : String
  last_run_date : Option String
deriving DecidableEq, Repr

/-- The wall clock at a tick: local hour, minute and ISO date. -/
structure Clock where
  hour : Nat
  minute : Nat
  dateIso : String
deriving DecidableEq, Repr

/-- The result of one scheduler tick: the updated in-memory state, whether a
pipeline run was triggered, and the schedule-config dict written to disk by
the tick (`_scheduler_loop` contains no `_save_schedule_config` call, so the
write is always `none`). -/
structure TickResult where
  cfg : SchedulerState
  fired : Bool
  diskWrite : Option (List (String × JVal))
deriving DecidableEq, Repr

/-- One iteration of `_scheduler_loop`: trigger iff enabled, the current
hour and minute equal the configured ones, and `last_run_date` differs from
today; when a run is already in progress the tick passes silently (in
particular `last_run_date` is left unchanged); on trigger, `last_run_date`
is set to today in memory only. -/
def schedulerTick (cfg : SchedulerState) (now : Clock) (running : Bool) : TickResult :=
  if cfg.enabled ∧ now.hour = cfg.hour ∧ now.minute = cfg.minute ∧
      cfg.last_run_date ≠ some now.dateIso then
    if running then ⟨cfg, false, none⟩
    else ⟨{ cfg with last_run_date := some now.dateIso }, true, none⟩
  else ⟨cfg, false, none⟩

/-! ### `Sever/config/config.py` values used by the five resolvers

`config.py` itself is configuration data, not logic; its constants are
parameters of the embedding.  Numeric values are modelled as `Int`. -/

structure ConfigPy where
  qwen_api_key : String
  SLLM : Int
  -- paper_summary / paper_assets module
  summary_base_url : String
  summary_model : String
  summary_base_url_2 : String
  summary_gptgod_apikey : String
  summary_model_2 : String
  summary_base_url_3 : String
  summary_apikey_3 : String
  summary_model_3 : String
  summary_temperature : Int
  summary_max_tokens : Int
  summary_input_hard_limit : Int
  summary_input_safety_margin : Int
  system_prompt : String
  paper_assets_system_prompt : String
  -- llm_select_theme module
  theme_select_base_url : String
  theme_select_model : String
  theme_select_temperature : Int
  theme_select_max_tokens : Int
  theme_select_system_prompt : String
  -- pdf_info module (org_* values; pdf_info defends against None here)
  org_base_url : String
  org_model : String
  org_temperature : Option Int
  org_max_tokens : Option Int
  pdf_info_system_prompt : String
  -- summary_limit module
  summary_limit_base_url : String
  summary_limit_model : String
  summary_limit_url_2 : String
  summary_limit_gptgod_apikey : String
  summary_limit_model_2 : String
  summary_limit_url_3 : String
  summary_limit_apikey_3 : String
  summary_limit_model_3 : String
  summary_limit_temperature : Int
  summary_limit_max_tokens : Int
  summary_limit_input_hard_limit : Int
  summary_limit_input_safety_margin : Int
  summary_limit_headline_limit : Int
  summary_limit_section_limit_intro : Int
  summary_limit_section_limit_method : Int
  summary_limit_section_limit_findings : Int
  summary_limit_section_limit_opinion : Int
  summary_limit_prompt_intro : String
  summary_limit_prompt_method : String
  summary_limit_prompt_findings : String
  summary_limit_prompt_opinion : String

/-! ### Stored per-user state read by the resolvers -/

/-- An LLM connection preset row (`user_presets_service.get_llm_preset`).
Absent/NULL columns are `none`. -/
structure LLMPreset where
  api_key : Option String := none
  base_url : Option String := none
  model : Option String := none
  temperature : Option Int := none
  max_tokens : Option Int := none
  input_hard_limit : Option Int := none
  input_safety_margin : Option Int := none
deriving DecidableEq, Repr

/-- The `paper_recommend` settings blob of a user
(`user_settings_service.get_settings`), restricted to the keys the five
resolvers read.  Missing keys are `none`. -/
structure UserSettings where
  summary_llm_preset_id : Option Int := none
  summary_limit_llm_preset_id : Option Int := none
  theme_select_llm_preset_id : Option Int := none
  org_llm_preset_id : Option Int := none
  llm_preset_id : Option Int := none
  llm_api_key : Option String := none
  llm_base_url : Option String := none
  llm_model : Option String := none
  temperature : Option Int := none
  max_tokens : Option Int := none
  input_hard_limit : Option Int := none
  input_safety_margin : Option Int := none
  prompt_preset_id : Option Int := none
  theme_select_prompt_preset_id : Option Int := none
  org_prompt_preset_id : Option Int := none
  system_prompt : Option String := none
  section_limit_intro : Option Int := none
  section_limit_method : Option Int := none
  section_limit_findings : Option Int := none
  section_limit_opinion : Option Int := none
  headline_limit : Option Int := none
  summary_limit_prompt_intro : Option String := none
  summary_limit_prompt_method : Option String := none
  summary_limit_prompt_findings : Option String := none
  summary_limit_prompt_opinion : Option String := none
deriving DecidableEq, Repr

/-- The preset stores behind `_resolve_llm_preset` / `_resolve_prompt_preset`:
`llm id` is the preset row or `none` on a miss (store errors also degrade to
`none`); `prompt id` is the prompt preset's `prompt_content`, `""` on a miss
(matching `(p or {}).get("prompt_content", "")`). -/
structure PresetStore where
  llm : Int → Option LLMPreset
  prompt : Int → String

/-- A user's loaded settings: `none` covers `user_id is None`, a missing or
empty settings blob, and store errors — all of which make every resolver
skip its user-override block. -/
abbrev UserCfg := Option UserSettings

/-! ### `Sever/Controller/paper_summary.py`: `make_client_for_user` -/

namespace paper_summary

/-- The result of `paper_summary.make_client_for_user`: the `effective_cfg`
dict plus the `OpenAI(api_key=..., base_url=...)` client arguments. -/
structure ResolvedCfg where
  system_prompt : String
  temperature : Int
  max_tokens : Int
  input_hard_limit : Int
  input_safety_margin : Int
  api_key : String
  base_url : String
  model : String
deriving DecidableEq, Repr

/-- The `# Prompt — preset takes priority` block of
`paper_summary.make_client_for_user`: a non-empty prompt-preset content
wins, else a truthy raw `system_prompt` field, else the default. -/
def resolve_prompt (store : PresetStore) (u : UserSettings) (cfg : ResolvedCfg) :
    ResolvedCfg :=
  let prompt_content :=
    if truthyI u.prompt_preset_id then store.prompt (u.prompt_preset_id.getD 0) else ""
  if prompt_content ≠ "" then { cfg with system_prompt := prompt_content }
  else if pyOrS u.system_prompt "" ≠ "" then
    { cfg with system_prompt := u.system_prompt.getD "" }
  else cfg

/-- The credential fallback of `paper_summary.make_client_for_user`: if
`key` or `base` is empty, ALL of key/base/model come from the
`SLLM`-selected global triple; else an empty `model` alone falls back to
the `SLLM`-selected global model. -/
def fallback (g : ConfigPy) (key base model : String) : String × String × String :=
  if key = "" ∨ base = "" then
    if g.SLLM = 2 then (pyStrip g.summary_gptgod_apikey, pyStrip g.summary_base_url_2, g.summary_model_2)
    else if g.SLLM = 3 then (pyStrip g.summary_apikey_3, pyStrip g.summary_base_url_3, g.summary_model_3)
    else (pyStrip g.qwen_api_key, pyStrip g.summary_base_url, g.summary_model)
  else if model = "" then
    (key, base,
      if g.SLLM = 2 then g.summary_model_2
      else if g.SLLM = 3 then g.summary_model_3
      else g.summary_model)
  else (key, base, model)

/-- The trailing credential fallback and fatal checks of
`paper_summary.make_client_for_user`: apply `fallback`, then an empty key
or base URL raises `SystemExit`. -/
def finalize (g : ConfigPy) (cfg : ResolvedCfg) (key base model : String) :
    Except String ResolvedCfg :=
  match fallback g key base model with
  | (key, base, model) =>
    if key = "" then .error "LLM API key missing (neither user preset nor config.py)"
    else if base = "" then .error "LLM base URL missing (neither user preset nor config.py)"
    else .ok { cfg with api_key := key, base_url := base, model := model }

/-- Function `make_client_for_user(user_id)` of `paper_summary.py`: start from
`config.py` defaults with empty `key`/`base`/`model`; apply the user's
module-specific (`summary_llm_preset_id`) or generic (`llm_preset_id`)
preset, or the raw per-user fields; resolve the system prompt
(`resolve_prompt`); then apply the global fallback and fatal checks
(`finalize`). -/
def make_client_for_user (g : ConfigPy) (store : PresetStore) (ucfg : UserCfg) :
    Except String ResolvedCfg :=
  let cfg : ResolvedCfg :=
    { system_prompt := g.system_prompt
      temperature := g.summary_temperature
      max_tokens := g.summary_max_tokens
      input_hard_limit := g.summary_input_hard_limit
      input_safety_margin := g.summary_input_safety_margin
      api_key := "", base_url := "", model := "" }
  match ucfg with
  | none => finalize g cfg "" "" ""
  | some u =>
    let preset_id := pyOrI u.summary_llm_preset_id u.llm_preset_id
    match (if truthyI preset_id then store.llm (preset_id.getD 0) else none) with
    | some p =>
      finalize g
        (resolve_prompt store u
          { cfg with
              temperature := p.temperature.getD cfg.temperature
              max_tokens := p.max_tokens.getD cfg.max_tokens
              input_hard_limit := p.input_hard_limit.getD cfg.input_hard_limit
              input_safety_margin := p.input_safety_margin.getD cfg.input_safety_margin })
        (orStrip p.api_key "") (orStrip p.base_url "") (orStrip p.model "")
    | none =>
      finalize g
        (resolve_prompt store u
          { cfg with
              temperature := u.temperature.getD cfg.temperature
              max_tokens := u.max_tokens.getD cfg.max_tokens
              input_hard_limit := u.input_hard_limit.getD cfg.input_hard_limit
              input_safety_margin := u.input_safety_margin.getD cfg.input_safety_margin })
        (orStrip u.llm_api_key "") (orStrip u.llm_base_url "") (orStrip u.llm_model "")

end paper_summary

/-! ### `Sever/Controller/summary_limit.py`: `build_effective_cfg` -/

namespace summary_limit

/-- The result of `summary_limit.build_effective_cfg`. -/
structure ResolvedCfg where
  temperature : Int
  max_tokens : Int
  input_hard_limit : Int
  input_safety_margin : Int
  headline_limit : Int
  section_limit_intro : Int
  section_limit_method : Int
  section_limit_findings : Int
  section_limit_opinion : Int
  prompt_intro : String
  prompt_method : String
  prompt_findings : String
  prompt_opinion : String
  api_key : String
  base_url : String
  model : String
deriving DecidableEq, Repr

/-- The `# Section limits` and `# Section prompts` blocks of
`summary_limit.build_effective_cfg`: non-null raw per-user limits and
truthy raw per-user prompts override the defaults. -/
def user_extras (u : UserSettings) (cfg : ResolvedCfg) : ResolvedCfg :=
  let cfg :=
    { cfg with
        section_limit_intro := u.section_limit_intro.getD cfg.section_limit_intro
        section_limit_method := u.section_limit_method.getD cfg.section_limit_method
        section_limit_findings := u.section_limit_findings.getD cfg.section_limit_findings
        section_limit_opinion := u.section_limit_opinion.getD cfg.section_limit_opinion
        headline_limit := u.headline_limit.getD cfg.headline_limit }
  { cfg with
      prompt_intro :=
        if pyOrS u.summary_limit_prompt_intro "" ≠ "" then u.summary_limit_prompt_intro.getD ""
        else cfg.prompt_intro
      prompt_method :=
        if pyOrS u.summary_limit_prompt_method "" ≠ "" then u.summary_limit_prompt_method.getD ""
        else cfg.prompt_method
      prompt_findings :=
        if pyOrS u.summary_limit_prompt_findings "" ≠ "" then u.summary_limit_prompt_findings.getD ""
        else cfg.prompt_findings
      prompt_opinion :=
        if pyOrS u.summary_limit_prompt_opinion "" ≠ "" then u.summary_limit_prompt_opinion.getD ""
        else cfg.prompt_opinion }

/-- The credential fallback of `summary_limit.build_effective_cfg`: same
shape as `paper_summary.fallback` with the `summary_limit_*` globals. -/
def fallback (g : ConfigPy) (key base model : String) : String × String × String :=
  if key = "" ∨ base = "" then
    if g.SLLM = 2 then (pyStrip g.summary_limit_gptgod_apikey, pyStrip g.summary_limit_url_2, g.summary_limit_model_2)
    else if g.SLLM = 3 then (pyStrip g.summary_limit_apikey_3, pyStrip g.summary_limit_url_3, g.summary_limit_model_3)
    else (pyStrip g.qwen_api_key, pyStrip g.summary_limit_base_url, g.summary_limit_model)
  else if model = "" then
    (key, base,
      if g.SLLM = 2 then g.summary_limit_model_2
      else if g.SLLM = 3 then g.summary_limit_model_3
      else g.summary_limit_model)
  else (key, base, model)

/-- The trailing credential fallback (`# Resolve LLM credentials`) and fatal
checks of `summary_limit.build_effective_cfg`. -/
def finalize (g : ConfigPy) (cfg : ResolvedCfg) (key base model : String) :
    Except String ResolvedCfg :=
  match fallback g key base model with
  | (key, base, model) =>
    if key = "" then .error "LLM API key missing (summary_limit)"
    else if base = "" then .error "LLM base URL missing (summary_limit)"
    else .ok { cfg with api_key := key, base_url := base, model := model }

/-- Function `build_effective_cfg(user_id)` of `summary_limit.py`: the same shape as
`paper_summary.make_client_for_user` (module prefix
`summary_limit_llm_preset_id`, `summary_limit_*` defaults, all-or-nothing
`SLLM` credential fallback, fatal checks on empty key/base), plus per-user
section limits and section prompts merged from the raw settings blob
(`user_extras`). -/
def build_effective_cfg (g : ConfigPy) (store : PresetStore) (ucfg : UserCfg) :
    Except String ResolvedCfg :=
  let cfg : ResolvedCfg :=
    { temperature := g.summary_limit_temperature
      max_tokens := g.summary_limit_max_tokens
      input_hard_limit := g.summary_limit_input_hard_limit
      input_safety_margin := g.summary_limit_input_safety_margin
      headline_limit := g.summary_limit_headline_limit
      section_limit_intro := g.summary_limit_section_limit_intro
      section_limit_method := g.summary_limit_section_limit_method
      section_limit_findings := g.summary_limit_section_limit_findings
      section_limit_opinion := g.summary_limit_section_limit_opinion
      prompt_intro := g.summary_limit_prompt_intro
      prompt_method := g.summary_limit_prompt_method
      prompt_findings := g.summary_limit_prompt_findings
      prompt_opinion := g.summary_limit_prompt_opinion
      api_key := "", base_url := "", model := "" }
  match ucfg with
  | none => finalize g cfg "" "" ""
  | some u =>
    let preset_id := pyOrI u.summary_limit_llm_preset_id u.llm_preset_id
    match (if truthyI preset_id then store.llm (preset_id.getD 0) else none) with
    | some p =>
      finalize g
        (user_extras u
          { cfg with
              temperature := p.temperature.getD cfg.temperature
              max_tokens := p.max_tokens.getD cfg.max_tokens
              input_hard_limit := p.input_hard_limit.getD cfg.input_hard_limit
              input_safety_margin := p.input_safety_margin.getD cfg.input_safety_margin })
        (orStrip p.api_key "") (orStrip p.base_url "") (orStrip p.model "")
    | none =>
      finalize g
        (user_extras u
          { cfg with
              temperature := u.temperature.getD cfg.temperature
              max_tokens := u.max_tokens.getD cfg.max_tokens
              input_hard_limit := u.input_hard_limit.getD cfg.input_hard_limit
              input_safety_margin := u.input_safety_margin.getD cfg.input_safety_margin })
        (orStrip u.llm_api_key "") (orStrip u.llm_base_url "") (orStrip u.llm_model "")

end summary_limit

/-! ### `Sever/Controller/llm_select_theme.py`: `make_client_for_user` -/

namespace llm_select_theme

/-- The result of `llm_select_theme.make_client_for_user`: the client
arguments plus the returned `effective_cfg` dict. -/
structure ResolvedCfg where
  api_key : String
  base_url : String
  model : String
  temperature : Int
  max_tokens : Int
  system_prompt : String
deriving DecidableEq, Repr

/-- Function `make_client_for_user(user_id)` of `llm_select_theme.py`: start from
the global defaults (`qwen_api_key`, `theme_select_base_url` with a
hard-coded DashScope fallback, `theme_select_model`); overlay the preset or
raw per-user fields one by one onto those defaults (an empty/None field
leaves the default); resolve the prompt from
`theme_select_prompt_preset_id` only; fail only on an empty api key.
There is no `SLLM` selector in this module. -/
def make_client_for_user (g : ConfigPy) (store : PresetStore) (ucfg : UserCfg) :
    Except String ResolvedCfg :=
  let key := pyStrip g.qwen_api_key
  let base :=
    let b := pyStrip g.theme_select_base_url
    if b = "" then "https://dashscope.aliyuncs.com/compatible-mode/v1" else b
  let model_name := g.theme_select_model
  let temperature := g.theme_select_temperature
  let max_tokens := g.theme_select_max_tokens
  let sys_prompt := g.theme_select_system_prompt
  let r :=
    match ucfg with
    | none => (key, base, model_name, temperature, max_tokens, sys_prompt)
    | some u =>
      let preset_id := pyOrI u.theme_select_llm_preset_id u.llm_preset_id
      let preset := if truthyI preset_id then store.llm (preset_id.getD 0) else none
      let r :=
        match preset with
        | some p =>
          (orStrip p.api_key key, orStrip p.base_url base, orStrip p.model model_name,
           p.temperature.getD temperature, p.max_tokens.getD max_tokens)
        | none =>
          (orStrip u.llm_api_key key, orStrip u.llm_base_url base, orStrip u.llm_model model_name,
           u.temperature.getD temperature, u.max_tokens.getD max_tokens)
      let sys_prompt :=
        if truthyI u.theme_select_prompt_preset_id then
          let content := store.prompt (u.theme_select_prompt_preset_id.getD 0)
          if content ≠ "" then content else sys_prompt
        else sys_prompt
      (r.1, r.2.1, r.2.2.1, r.2.2.2.1, r.2.2.2.2, sys_prompt)
  if r.1 = "" then .error "theme_select: no api_key available (global config or user preset)"
  else
    .ok { api_key := r.1, base_url := r.2.1, model := r.2.2.1,
          temperature := r.2.2.2.1, max_tokens := r.2.2.2.2.1,
          system_prompt := r.2.2.2.2.2 }

end llm_select_theme

/-! ### `Sever/Controller/pdf_info.py`: `_resolve_llm_for_user` -/

namespace pdf_info

/-- The result of `pdf_info._resolve_llm_for_user`. -/
structure ResolvedCfg where
  api_key : String
  base_url : String
  model : String
  temperature : Int
  max_tokens : Int
  system_prompt : String
deriving DecidableEq, Repr

/-- Function `_resolve_llm_for_user(user_id)` of `pdf_info.py`: defaults from the
`org_*` config values (with hard-coded DashScope/`qwen-plus` fallbacks),
preset or raw per-user fields overlaid one by one, prompt from
`org_prompt_preset_id` only.  The function is total: it performs NO
empty-credential check, and its caller feeds `cfg["api_key"]` straight into
the HTTP request of `call_qwen`. -/
def resolve_llm_for_user (g : ConfigPy) (store : PresetStore) (ucfg : UserCfg) :
    ResolvedCfg :=
  let cfg : ResolvedCfg :=
    { api_key := pyStrip g.qwen_api_key
      base_url :=
        pyStrip (if g.org_base_url = "" then "https://dashscope.aliyuncs.com/compatible-mode/v1"
         else g.org_base_url)
      model := pyStrip (if g.org_model = "" then "qwen-plus" else g.org_model)
      temperature := g.org_temperature.getD 1
      max_tokens := g.org_max_tokens.getD 1024
      system_prompt := pyStrip g.pdf_info_system_prompt }
  match ucfg with
  | none => cfg
  | some u =>
    let preset_id := pyOrI u.org_llm_preset_id u.llm_preset_id
    let preset := if truthyI preset_id then store.llm (preset_id.getD 0) else none
    let cfg :=
      match preset with
      | some p =>
        { cfg with
            api_key := orStrip p.api_key cfg.api_key
            base_url := orStrip p.base_url cfg.base_url
            model := orStrip p.model cfg.model
            temperature := p.temperature.getD cfg.temperature
            max_tokens := p.max_tokens.getD cfg.max_tokens }
      | none =>
        { cfg with
            api_key := orStrip u.llm_api_key cfg.api_key
            base_url := orStrip u.llm_base_url cfg.base_url
            model := orStrip u.llm_model cfg.model
            temperature := u.temperature.getD cfg.temperature
            max_tokens := u.max_tokens.getD cfg.max_tokens }
    if truthyI u.org_prompt_preset_id then
      let content := store.prompt (u.org_prompt_preset_id.getD 0)
      if content ≠ "" then { cfg with system_prompt := content } else cfg
    else cfg

end pdf_info

/-! ### `Sever/Controller/paper_assets.py`: `make_client_for_user` -/

namespace paper_assets

/-- The result of `paper_assets.make_client_for_user`. -/
structure ResolvedCfg where
  model : String
  temperature : Int
  max_tokens : Int
  input_hard_limit : Int
  input_safety_margin : Int
  system_prompt : String
  api_key : String
  base_url : String
deriving DecidableEq, Repr

/-- Function `_global_sllm_connection()` of `paper_assets.py`: the `(key, base_url,
model)` triple selected by the global `SLLM` switch. -/
def global_sllm_connection (g : ConfigPy) : String × String × String :=
  if g.SLLM = 2 then (pyStrip g.summary_gptgod_apikey, pyStrip g.summary_base_url_2, g.summary_model_2)
  else if g.SLLM = 3 then (pyStrip g.summary_apikey_3, pyStrip g.summary_base_url_3, g.summary_model_3)
  else (pyStrip g.qwen_api_key, pyStrip g.summary_base_url, g.summary_model)

/-- Function `make_client_for_user(user_id)` of `paper_assets.py`: defaults from the
`SLLM`-selected global triple and the `summary_*` config values; the
module reuses `summary_llm_preset_id` (it processes `paper_summary`
output); preset or raw per-user fields are overlaid one by one; no prompt
preset; fatal checks on empty key and empty base URL. -/
def make_client_for_user (g : ConfigPy) (store : PresetStore) (ucfg : UserCfg) :
    Except String ResolvedCfg :=
  let gkbm := global_sllm_connection g
  let cfg : ResolvedCfg :=
    { model := gkbm.2.2
      temperature := g.summary_temperature
      max_tokens := g.summary_max_tokens
      input_hard_limit := g.summary_input_hard_limit
      input_safety_margin := g.summary_input_safety_margin
      system_prompt := g.paper_assets_system_prompt
      api_key := gkbm.1, base_url := gkbm.2.1 }
  let cfg :=
    match ucfg with
    | none => cfg
    | some u =>
      let preset_id := pyOrI u.summary_llm_preset_id u.llm_preset_id
      let preset := if truthyI preset_id then store.llm (preset_id.getD 0) else none
      match preset with
      | some p =>
        { cfg with
            api_key := orStrip p.api_key cfg.api_key
            base_url := orStrip p.base_url cfg.base_url
            model := orStrip p.model cfg.model
            temperature := p.temperature.getD cfg.temperature
            max_tokens := p.max_tokens.getD cfg.max_tokens
            input_hard_limit := p.input_hard_limit.getD cfg.input_hard_limit
            input_safety_margin := p.input_safety_margin.getD cfg.input_safety_margin }
      | none =>
        { cfg with
            api_key := orStrip u.llm_api_key cfg.api_key
            base_url := orStrip u.llm_base_url cfg.base_url
            model := orStrip u.llm_model cfg.model
            temperature := u.temperature.getD cfg.temperature
            max_tokens := u.max_tokens.getD cfg.max_tokens
            input_hard_limit := u.input_hard_limit.getD cfg.input_hard_limit
            input_safety_margin := u.input_safety_margin.getD cfg.input_safety_margin }
  if cfg.api_key = "" then .error "paper_assets: no api_key available (global config or user preset)"
  else if cfg.base_url = "" then .error "paper_assets: no base_url available (global config or user preset)"
  else .ok cfg

end paper_assets

/-! ### Concrete fixtures used by the theorems below -/

/-- Filesystem for the C1 witness: exactly the `arxiv_search` and
`paperList_remove_duplications` markers for 2026-02-07 exist. -/
def c1fs : FileSystem :=
  { isFile := fun p =>
      p == "R/data/arxivList/md/2026-02-07.md" ||
      p == "R/data/paperList_remove_duplications/2026-02-07.json",
    isDir := fun _ => false }

/-- The first two steps of the default pipeline. -/
def c1done : List String := ["arxiv_search", "paperList_remove_duplications"]

/-- The remaining non-Zotero steps of the default pipeline. -/
def c1todo : List String :=
  [ "llm_select_theme", "paper_theme_filter", "pdf_download", "pdf_split",
    "pdfsplite_to_minerU", "pdf_info", "instutions_filter", "selectpaper",
    "selectedpaper_to_mineru", "paper_summary", "summary_limit", "select_image",
    "file_collect", "paper_assets" ]

/-- The arxiv markdown directory for the C5 witness: the freshly written
2026-02-07 report, with the greatest mtime, declares `- Selected: **0**`. -/
def c5mdDir : Option (List MdFile) :=
  some [ ⟨"2026-02-07.md", 100, ["# arXiv 2026-02-07", "- Selected: **0**"]⟩,
         ⟨"2026-02-06.md", 50, ["- Selected: **7**"]⟩ ]

/-- Filesystem for the C10 witness: only the `arxiv_search` marker exists. -/
def c10fs : FileSystem :=
  { isFile := fun p => p == "R/data/arxivList/md/2026-02-07.md",
    isDir := fun _ => false }

/-- Initial buffer for the C7 witness: the single reset line written by the
trigger. -/
def c7init : List String := ["[10:00:00] start pipeline default 2026-02-07"]

/-- 501 emitted subprocess lines for the C7 witness. -/
def c7emitted : List (String × String) :=
  (List.range 501).map (fun i => ("10:00:01", "line " ++ toString i))

/-- Scheduler state for the C9 theorems: enabled, 06:00, never fired. -/
def c9cfg : SchedulerState := ⟨true, 6, 0, "daily", none, "F", none⟩

/-- The clock during the configured minute on 2026-02-07. -/
def c9now : Clock := ⟨6, 0, "2026-02-07"⟩

/-! ### Shared concrete fixtures for the resolver claims -/

/-- A concrete `config.py` valuation with matched module defaults: every
module's default base URL is `https://g`, default model `gmodel`, default
credentials `GKEY`, temperature 7, max_tokens 2000, `SLLM = 1`. -/
def demoConfig : ConfigPy :=
  { qwen_api_key := "GKEY", SLLM := 1,
    summary_base_url := "https://g", summary_model := "gmodel",
    summary_base_url_2 := "https://g2", summary_gptgod_apikey := "GK2",
    summary_model_2 := "gmodel2",
    summary_base_url_3 := "https://g3", summary_apikey_3 := "GK3",
    summary_model_3 := "gmodel3",
    summary_temperature := 7, summary_max_tokens := 2000,
    summary_input_hard_limit := 100, summary_input_safety_margin := 10,
    system_prompt := "SP", paper_assets_system_prompt := "PASP",
    theme_select_base_url := "https://g", theme_select_model := "gmodel",
    theme_select_temperature := 7, theme_select_max_tokens := 2000,
    theme_select_system_prompt := "TSP",
    org_base_url := "https://g", org_model := "gmodel",
    org_temperature := some 7, org_max_tokens := some 2000,
    pdf_info_system_prompt := "OSP",
    summary_limit_base_url := "https://g", summary_limit_model := "gmodel",
    summary_limit_url_2 := "https://g2", summary_limit_gptgod_apikey := "GK2",
    summary_limit_model_2 := "gmodel2",
    summary_limit_url_3 := "https://g3", summary_limit_apikey_3 := "GK3",
    summary_limit_model_3 := "gmodel3",
    summary_limit_temperature := 7, summary_limit_max_tokens := 2000,
    summary_limit_input_hard_limit := 100, summary_limit_input_safety_margin := 10,
    summary_limit_headline_limit := 50,
    summary_limit_section_limit_intro := 1, summary_limit_section_limit_method := 2,
    summary_limit_section_limit_findings := 3, summary_limit_section_limit_opinion := 4,
    summary_limit_prompt_intro := "pi", summary_limit_prompt_method := "pm",
    summary_limit_prompt_findings := "pf", summary_limit_prompt_opinion := "po" }

/-- A preset store holding one preset, id 1: a non-empty `api_key` and
`model` but a NULL `base_url`. -/
def demoStore : PresetStore :=
  { llm := fun i =>
      if i = 1 then some { api_key := some "userkey", base_url := none, model := some "umodel" }
      else none,
    prompt := fun _ => "" }

/-- Stored settings selecting preset 1 through every module-specific preset
id field, with a different generic `llm_preset_id` also set. -/
def demoUser : UserSettings :=
  { summary_llm_preset_id := some 1, summary_limit_llm_preset_id := some 1,
    theme_select_llm_preset_id := some 1, org_llm_preset_id := some 1,
    llm_preset_id := some 9 }

/-- Preset 2 for the C2-amended witness: non-empty `api_key` and `base_url`
(with surrounding whitespace to exercise the strip), a null `model`, a
non-null `temperature` of 0 and a null `max_tokens`. -/
def c2preset : LLMPreset :=
  { api_key := some "userkey", base_url := some " https://u ", temperature := some 0 }

/-- A preset store holding `c2preset` under id 2. -/
def c2store : PresetStore :=
  { llm := fun i => if i = 2 then some c2preset else none, prompt := fun _ => "" }

/-- Settings selecting preset 2 module-specifically, with a generic preset
id also present. -/
def c2user : UserSettings := { summary_llm_preset_id := some 2, llm_preset_id := some 9 }

/-! ## Theorems

### Shared lemmas about the step loop -/

/-- A prefix of steps whose output markers all exist is skipped wholesale:
the loop records a `SKIP` for each and proceeds to the remaining steps. -/
theorem runSteps_skipDone (fs : FileSystem) (exitCode : String → Int)
    (mdDir : Option (List MdFile)) (root date : String) (pre rest : List String)
    (h : ∀ s ∈ pre, step_output_exists fs root s date = true) :
    runSteps fs exitCode mdDir root date (pre ++ rest) =
      (pre.map Event.skip ++ (runSteps fs exitCode mdDir root date rest).1,
       (runSteps fs exitCode mdDir root date rest).2) := by
  induction pre with
  | nil => simp
  | cons a l ih =>
    have ha : step_output_exists fs root a date = true := h a (by simp)
    have hl : ∀ s ∈ l, step_output_exists fs root s date = true :=
      fun s hs => h s (by simp [hs])
    simp [runSteps, ha, ih hl]

/-- A run of steps with no existing markers, registered commands, zero exit
codes, and no zero-selected early stop executes every step in order and
completes. -/
theorem runSteps_all_run (fs : FileSystem) (exitCode : String → Int)
    (mdDir : Option (List MdFile)) (root date : String) (post : List String)
    (hmark : ∀ s ∈ post, step_output_exists fs root s date = false)
    (hknown : ∀ s ∈ post, ((STEPS root).lookup s).isSome)
    (hexit : ∀ s ∈ post, exitCode s = 0)
    (hzero : "arxiv_search" ∈ post → detect_selected_count mdDir ≠ some 0) :
    runSteps fs exitCode mdDir root date post = (post.map Event.run, Outcome.completed) := by
  induction post with
  | nil => simp [runSteps]
  | cons a l ih =>
    have ha : step_output_exists fs root a date = false := hmark a (by simp)
    obtain ⟨cmd, hcmd⟩ := Option.isSome_iff_exists.mp (hknown a (by simp))
    have hexa : exitCode a = 0 := hexit a (by simp)
    have hnostop : ¬(a = "arxiv_search" ∧ detect_selected_count mdDir = some 0) := by
      rintro ⟨h1, h2⟩
      exact hzero (h1 ▸ List.mem_cons_self a l) h2
    have ihl := ih (fun s hs => hmark s (by simp [hs]))
      (fun s hs => hknown s (by simp [hs]))
      (fun s hs => hexit s (by simp [hs]))
      (fun hm => hzero (by simp [hm]))
    simp [runSteps, ha, hcmd, hexa, hnostop, ihl]

/-- The step named `arxiv_search` is always registered in `STEPS`. -/
theorem STEPS_lookup_arxiv (root : String) :
    (STEPS root).lookup "arxiv_search" =
      some (ospathJoin [root, "Controller", "arxiv_search04.py"]) := rfl

/-! ### C1 — idempotent resume -/

/-- C1: in a pipeline run for date `date`, every step whose declared output
marker exists is skipped (its subprocess is never invoked), and the
remaining steps — given registered commands, zero exit codes, and no
zero-selected early stop — are all executed in declared order; moreover a
step with no entry in `STEP_OUTPUT_PATHS` is never skipped by the output
check. -/
theorem idempotent_resume (fs : FileSystem) (exitCode : String → Int)
    (mdDir : Option (List MdFile)) (root date : String)
    (done todo : List String) (step : String)
    (hdone : ∀ s ∈ done, step_output_exists fs root s date = true)
    (htodo : ∀ s ∈ todo, step_output_exists fs root s date = false)
    (hknown : ∀ s ∈ todo, ((STEPS root).lookup s).isSome)
    (hexit : ∀ s ∈ todo, exitCode s = 0)
    (hzero : "arxiv_search" ∈ todo → detect_selected_count mdDir ≠ some 0)
    (hnomarker : (STEP_OUTPUT_PATHS root).lookup step = none) :
    runSteps fs exitCode mdDir root date (done ++ todo) =
      (done.map Event.skip ++ todo.map Event.run, Outcome.completed) ∧
    step_output_exists fs root step date = false := by
  refine ⟨?_, ?_⟩
  · rw [runSteps_skipDone fs exitCode mdDir root date done todo hdone,
      runSteps_all_run fs exitCode mdDir root date todo htodo hknown hexit hzero]
  · simp [step_output_exists, hnomarker]

/-- Witness for C1: with markers for the first two steps of the default
pipeline present, the run skips exactly those two and executes the other
fourteen in order; `zotero_push` has no declared marker and is not skipped
by the output check. -/
theorem idempotent_resume_witness :
    runSteps c1fs (fun _ => 0) none "R" "2026-02-07" (c1done ++ c1todo) =
      (c1done.map Event.skip ++ c1todo.map Event.run, Outcome.completed) ∧
    step_output_exists c1fs "R" "zotero_push" "2026-02-07" = false :=
  idempotent_resume c1fs (fun _ => 0) none "R" "2026-02-07" c1done c1todo "zotero_push"
    (by decide) (by decide) (by decide) (by decide) (by decide) (by rfl)

/-! ### C5 — early stop on zero selected papers -/

/-- C5: when `arxiv_search` is actually run (its marker is absent) and exits
zero, and `detect_selected_count` reads a selected count of exactly `0` from
the arxiv markdown directory, the run ends immediately after `arxiv_search`
with the early-stop outcome — no later step's subprocess is invoked — and
the process exit status is `0` (success, not an error). -/
theorem early_stop_zero_selected (fs : FileSystem) (exitCode : String → Int)
    (mdDir : Option (List MdFile)) (root date : String) (pre rest : List String)
    (hpre : ∀ s ∈ pre, step_output_exists fs root s date = true)
    (hmark : step_output_exists fs root "arxiv_search" date = false)
    (hexit : exitCode "arxiv_search" = 0)
    (hzero : detect_selected_count mdDir = some 0) :
    runSteps fs exitCode mdDir root date (pre ++ "arxiv_search" :: rest) =
      (pre.map Event.skip ++ [Event.run "arxiv_search"], Outcome.earlyStopZero) ∧
    mainExitCode Outcome.earlyStopZero = 0 := by
  refine ⟨?_, rfl⟩
  rw [runSteps_skipDone fs exitCode mdDir root date pre _ hpre]
  simp [runSteps, hmark, STEPS_lookup_arxiv, hexit, hzero]

/-- Witness for C5: with no existing markers on an empty filesystem,
a successful `arxiv_search` followed by a reported selected count of `0`
stops the default pipeline right after the first step, with exit status 0. -/
theorem early_stop_zero_selected_witness :
    runSteps ⟨fun _ => false, fun _ => false⟩ (fun _ => 0) c5mdDir "R" "2026-02-07"
        ([] ++ "arxiv_search" :: c1todo) =
      (([] : List String).map Event.skip ++ [Event.run "arxiv_search"],
       Outcome.earlyStopZero) ∧
    mainExitCode Outcome.earlyStopZero = 0 :=
  early_stop_zero_selected ⟨fun _ => false, fun _ => false⟩ (fun _ => 0) c5mdDir
    "R" "2026-02-07" [] c1todo (by decide) (by decide) (by decide) (by decide)

/-! ### C10 — an existing `arxiv_search` marker bypasses the early-stop check -/

/-- C10: when the `arxiv_search` output marker already exists, the step is
recorded as SKIP and the zero-selected check is never evaluated: every
subsequent step runs subject only to its own marker, even though
`detect_selected_count` would report exactly `0`. -/
theorem skip_bypasses_early_stop (fs : FileSystem) (exitCode : String → Int)
    (mdDir : Option (List MdFile)) (root date : String) (rest : List String)
    (hmark : step_output_exists fs root "arxiv_search" date = true)
    (hrest_mark : ∀ s ∈ rest, step_output_exists fs root s date = false)
    (hrest_known : ∀ s ∈ rest, ((STEPS root).lookup s).isSome)
    (hrest_exit : ∀ s ∈ rest, exitCode s = 0)
    (hnoarxiv : "arxiv_search" ∉ rest)
    (_hzero : detect_selected_count mdDir = some 0) :
    runSteps fs exitCode mdDir root date ("arxiv_search" :: rest) =
      (Event.skip "arxiv_search" :: rest.map Event.run, Outcome.completed) := by
  have h := runSteps_skipDone fs exitCode mdDir root date ["arxiv_search"] rest
    (by intro s hs; simp at hs; simpa [hs] using hmark)
  simp only [List.singleton_append] at h
  rw [h, runSteps_all_run fs exitCode mdDir root date rest hrest_mark hrest_known
    hrest_exit (fun hm => absurd hm hnoarxiv)]
  simp

/-- Witness for C10: the marker for `arxiv_search` exists and its artifact
reports `- Selected: **0**`, yet the run skips `arxiv_search` and executes
all fourteen remaining steps. -/
theorem skip_bypasses_early_stop_witness :
    runSteps c10fs (fun _ => 0) c5mdDir "R" "2026-02-07" ("arxiv_search" :: c1todo) =
      (Event.skip "arxiv_search" :: c1todo.map Event.run, Outcome.completed) :=
  skip_bypasses_early_stop c10fs (fun _ => 0) c5mdDir "R" "2026-02-07" c1todo
    (by decide) (by decide) (by decide) (by decide) (by decide) (by decide)

/-! ### C7 — bounded log ring buffer -/

/-- Lemma: `appendLog` never lets the buffer exceed 500 lines. -/
theorem appendLog_length_le (l : List String) (x : String) :
    (appendLog l x).length ≤ 500 := by
  simp only [appendLog]
  by_cases h : (l ++ [x]).length > 500
  · rw [if_pos h]
    simp
    omega
  · rw [if_neg h]
    simp at h ⊢
    omega

/-- Reversed view of one append: the newest line in front, capped at 500. -/
theorem appendLog_reverse (l : List String) (x : String) :
    (appendLog l x).reverse = (x :: l.reverse).take 500 := by
  simp only [appendLog]
  by_cases h : (l ++ [x]).length > 500
  · rw [if_pos h, List.reverse_drop]
    have h500 : (l ++ [x]).length - ((l ++ [x]).length - 500) = 500 := by omega
    rw [h500, List.reverse_append, List.reverse_singleton, List.singleton_append]
  · rw [if_neg h, List.reverse_append, List.reverse_singleton, List.singleton_append,
      List.take_of_length_le]
    simp at h ⊢
    omega

/-- Folding `appendLog` retains, in reversed view, the newest 500 of all
lines ever present. -/
theorem foldl_appendLog_reverse (xs : List String) (init : List String)
    (h : init.length ≤ 500) :
    (xs.foldl appendLog init).reverse = (xs.reverse ++ init.reverse).take 500 := by
  induction xs generalizing init with
  | nil =>
    simp only [List.foldl_nil, List.reverse_nil, List.nil_append]
    rw [List.take_of_length_le]
    simpa using h
  | cons x xs ih =>
    rw [List.foldl_cons, ih (appendLog init x) (appendLog_length_le init x),
      appendLog_reverse, List.reverse_cons, List.append_assoc,
      List.singleton_append, List.take_append_eq_append_take,
      @List.take_append_eq_append_take _ xs.reverse _ _, List.take_take]
    congr 2
    omega

/-- C7: every captured line is appended with its timestamp prefix, and once
more than 500 lines have been emitted the retained buffer is exactly the
most recent 500 stamped lines in emission order, of length exactly 500. -/
theorem log_buffer_bound (init : List String) (emitted : List (String × String))
    (hinit : init.length ≤ 500) (hcount : 500 < emitted.length) :
    workerLogs init emitted =
      (emitted.map (fun p => stampLine p.1 p.2)).drop (emitted.length - 500) ∧
    (workerLogs init emitted).length = 500 := by
  have hw : workerLogs init emitted =
      (emitted.map (fun p => stampLine p.1 p.2)).foldl appendLog init := by
    simp [workerLogs, List.foldl_map]
  set st := emitted.map (fun p => stampLine p.1 p.2) with hst
  have hlen : st.length = emitted.length := by simp [hst]
  have h1 : (workerLogs init emitted).reverse = (st.reverse ++ init.reverse).take 500 := by
    rw [hw]
    exact foldl_appendLog_reverse st init hinit
  have h2 : (st.reverse ++ init.reverse).take 500 = st.reverse.take 500 := by
    have hz : 500 - st.reverse.length = 0 := by
      simp only [List.length_reverse, hlen]
      omega
    rw [List.take_append_eq_append_take, hz, List.take_zero, List.append_nil]
  have h3 : workerLogs init emitted = (st.reverse.take 500).reverse := by
    rw [← h2, ← h1, List.reverse_reverse]
  have h4 : st.drop (st.length - 500) = (st.reverse.take 500).reverse := by
    have hr := @List.reverse_drop _ st (st.length - 500)
    have h500 : st.length - (st.length - 500) = 500 := by omega
    rw [h500] at hr
    rw [← hr, List.reverse_reverse]
  refine ⟨?_, ?_⟩
  · rw [h3, ← h4, hlen]
  · rw [h3]
    simp only [List.length_reverse, List.length_take, List.length_reverse, hlen]
    omega

/-- Witness for C7: after 501 emitted lines on top of the reset line, the
buffer is exactly the stamped lines 1..500, of length 500. -/
theorem log_buffer_bound_witness :
    workerLogs c7init c7emitted =
      (c7emitted.map (fun p => stampLine p.1 p.2)).drop (c7emitted.length - 500) ∧
    (workerLogs c7init c7emitted).length = 500 :=
  log_buffer_bound c7init c7emitted (by decide)
    (by simp [c7emitted])

/-! ### C6 — single-flight guard (code bug: the check and the worker's
`running = True` are separate lock acquisitions) -/

/-- C6: a trigger that observes `running = True` is rejected with a conflict
and queues nothing — but the state in which two workers are simultaneously
active is reachable: two triggers can both pass the check before either
spawned worker runs its initialisation block, so the process-wide
at-most-one-active-run invariant does not hold. -/
theorem single_flight_race :
    (∀ a p : Nat, trigger ⟨true, a, p⟩ = (⟨true, a, p⟩, TriggerResult.rejectedConflict)) ∧
    Reach ⟨true, 2, 0⟩ := by
  refine ⟨fun a p => rfl, ?_⟩
  have h0 : Reach ⟨false, 0, 0⟩ := .init
  have h1 : Reach ⟨false, 0, 1⟩ := by simpa [trigger] using Reach.trigger h0
  have h2 : Reach ⟨false, 0, 2⟩ := by simpa [trigger] using Reach.trigger h1
  have h3 : Reach ⟨true, 1, 1⟩ := by
    simpa [workerInit] using Reach.workerInit h2 (by decide)
  simpa [workerInit] using Reach.workerInit h3 (by decide)

/-! ### C8 — schedule persistence -/

/-- C8 counterexample: the record written to `schedule_config.json` has no
`last_run_date` key, and the scheduler tick that sets `last_run_date` in
memory writes nothing to disk — so the claim that `last_run_date` is part of
the persisted record and persisted immediately when set is false. -/
theorem schedule_persist_counterexample :
    "last_run_date" ∉ (savedScheduleConfig ⟨true, 6, 0, "daily", none, some "F"⟩).map Prod.fst ∧
    (schedulerTick ⟨true, 6, 0, "daily", none, "F", none⟩ ⟨6, 0, "2026-02-07"⟩ false).cfg.last_run_date
      = some "2026-02-07" ∧
    (schedulerTick ⟨true, 6, 0, "daily", none, "F", none⟩ ⟨6, 0, "2026-02-07"⟩ false).diskWrite
      = none := by
  refine ⟨by decide, by decide, by decide⟩

/-- C8 amended: the persisted schedule record contains exactly `enabled`,
`hour`, `minute`, `pipeline`, `sllm` and `zo`; `last_run_date` is kept in
memory only — no scheduler tick ever writes to disk — so the
same-date-firing guard does not survive a process restart. -/
theorem schedule_persist_amended :
    (∀ b : ScheduleBody,
      (savedScheduleConfig b).map Prod.fst =
        ["enabled", "hour", "minute", "pipeline", "sllm", "zo"]) ∧
    (∀ (cfg : SchedulerState) (now : Clock) (running : Bool),
      (schedulerTick cfg now running).diskWrite = none) := by
  refine ⟨fun b => rfl, fun cfg now running => ?_⟩
  unfold schedulerTick
  split
  · split <;> rfl
  · rfl

/-! ### C9 — scheduler behaviour while a run is in progress -/

/-- C9 counterexample: a tick at the trigger instant with a run in progress
is skipped without recording `last_run_date`, so the very next tick in the
same configured minute (the loop ticks every 30 seconds) fires on the same
day — the claim that the scheduler does not trigger again until the next
day's trigger instant is false. -/
theorem scheduler_skip_retry_counterexample :
    schedulerTick c9cfg c9now true = ⟨c9cfg, false, none⟩ ∧
    (schedulerTick c9cfg c9now false).fired = true := by
  refine ⟨by decide, by decide⟩

/-- C9 amended: a tick that observes a running pipeline is silently skipped
with the scheduler state unchanged (no deferred-retry record, no disk
write); a tick fires only when enabled, at the configured hour and minute,
on a date other than `last_run_date`, with no run in progress — and firing
records today in `last_run_date`, so after the configured minute has passed
the scheduler cannot fire again until the next day's trigger instant.
Because skipped ticks leave `last_run_date` unset, a later tick within the
same configured minute may still fire on the same day. -/
theorem scheduler_skip_amended (cfg : SchedulerState) (now : Clock) (running : Bool)
    (h : (schedulerTick cfg now running).fired = true) :
    running = false ∧ cfg.enabled = true ∧ now.hour = cfg.hour ∧
    now.minute = cfg.minute ∧ cfg.last_run_date ≠ some now.dateIso ∧
    (schedulerTick cfg now running).cfg.last_run_date = some now.dateIso ∧
    schedulerTick cfg now true = ⟨cfg, false, none⟩ := by
  by_cases hcond : cfg.enabled = true ∧ now.hour = cfg.hour ∧ now.minute = cfg.minute ∧
      cfg.last_run_date ≠ some now.dateIso
  · obtain ⟨he, hh, hm, hl⟩ := hcond
    cases running with
    | true =>
      rw [schedulerTick] at h
      rw [if_pos ⟨he, hh, hm, hl⟩] at h
      simp at h
    | false =>
      refine ⟨rfl, he, hh, hm, hl, ?_, ?_⟩
      · rw [schedulerTick, if_pos ⟨he, hh, hm, hl⟩]
        simp
      · rw [schedulerTick, if_pos ⟨he, hh, hm, hl⟩]
        simp
  · rw [schedulerTick, if_neg ?_] at h
    · simp at h
    · simpa using hcond

/-- Witness for C9 amended: the firing tick at 06:00 on 2026-02-07 with no
run in progress satisfies every conclusion, and the same tick with a run in
progress is a silent no-op. -/
theorem scheduler_skip_amended_witness :
    false = false ∧ c9cfg.enabled = true ∧ c9now.hour = c9cfg.hour ∧
    c9now.minute = c9cfg.minute ∧ c9cfg.last_run_date ≠ some c9now.dateIso ∧
    (schedulerTick c9cfg c9now false).cfg.last_run_date = some c9now.dateIso ∧
    schedulerTick c9cfg c9now true = ⟨c9cfg, false, none⟩ :=
  scheduler_skip_amended c9cfg c9now false (by decide)

/-! ### C2 — preset-field override semantics in `paper_summary` -/

/-- C2 counterexample: preset 1 has the non-empty `api_key` `"userkey"` and
non-empty `model` `"umodel"` but a null `base_url`; `paper_summary`
resolution then discards BOTH non-empty preset fields and uses the
`SLLM`-selected globals (`"GKEY"`, `"gmodel"`) — so the claim that a
resolved preset's non-null/non-empty fields override the module defaults is
false. -/
theorem preset_override_counterexample :
    demoStore.llm 1 = some { api_key := some "userkey", base_url := none, model := some "umodel" } ∧
    (paper_summary.make_client_for_user demoConfig demoStore (some demoUser)).toOption.map
      (fun c => (c.api_key, c.base_url, c.model)) = some ("GKEY", "https://g", "gmodel") ∧
    ("GKEY" : String) ≠ "userkey" ∧ ("gmodel" : String) ≠ "umodel" := by
  refine ⟨by decide, by decide, by decide, by decide⟩

/-! ### C4 — empty-credential fatality (code bug in `pdf_info`) -/

/-- C4: with an empty global `qwen_api_key` and no user settings,
`pdf_info._resolve_llm_for_user` returns a configuration whose `api_key` is
the empty string — the function's type is total, there is no error path, and
the caller feeds this key straight into the `call_qwen` HTTP request — while
`paper_summary` (like `summary_limit`, `paper_assets` and, for the key,
`llm_select_theme`) fails fatally before constructing a client. -/
theorem empty_credentials_pdf_info :
    (pdf_info.resolve_llm_for_user { demoConfig with qwen_api_key := "" } demoStore none).api_key
      = "" ∧
    (pdf_info.resolve_llm_for_user { demoConfig with qwen_api_key := "" } demoStore none).base_url
      = "https://g" ∧
    paper_summary.make_client_for_user { demoConfig with qwen_api_key := "" } demoStore none
      = .error "LLM API key missing (neither user preset nor config.py)" := by
  refine ⟨by decide, by decide, by rfl⟩

/-- Lemma: `paper_summary.finalize` with a non-empty key and base: the credentials
survive, only an empty model falls back to the `SLLM`-selected global. -/
theorem ps_finalize_of_key_base (g : ConfigPy) (cfg : paper_summary.ResolvedCfg)
    (key base model : String) (hkey : key ≠ "") (hbase : base ≠ "") :
    paper_summary.finalize g cfg key base model =
      .ok { cfg with
              api_key := key
              base_url := base
              model :=
                if model = "" then
                  (if g.SLLM = 2 then g.summary_model_2
                   else if g.SLLM = 3 then g.summary_model_3
                   else g.summary_model)
                else model } := by
  have hc : ¬(key = "" ∨ base = "") := by
    rintro (h | h)
    · exact hkey h
    · exact hbase h
  unfold paper_summary.finalize paper_summary.fallback
  rw [if_neg hc]
  by_cases hm : model = ""
  · rw [if_pos hm, if_pos hm]
    simp [hkey, hbase]
  · rw [if_neg hm, if_neg hm]
    simp [hkey, hbase]

/-- Lemma: `paper_summary.resolve_prompt` touches only the system prompt. -/
theorem ps_resolve_prompt_core (store : PresetStore) (u : UserSettings)
    (cfg : paper_summary.ResolvedCfg) :
    (paper_summary.resolve_prompt store u cfg).temperature = cfg.temperature ∧
    (paper_summary.resolve_prompt store u cfg).max_tokens = cfg.max_tokens ∧
    (paper_summary.resolve_prompt store u cfg).input_hard_limit = cfg.input_hard_limit ∧
    (paper_summary.resolve_prompt store u cfg).input_safety_margin = cfg.input_safety_margin := by
  simp only [paper_summary.resolve_prompt]
  split_ifs <;> simp

/-- C2 amended: in `paper_summary`, when the module-specific preset id is
set it is the one used (the generic `llm_preset_id` is irrelevant), and
provided the resolved preset's `api_key` AND `base_url` are both non-empty
they become the resolved credentials, an empty preset `model` falls back to
the `SLLM`-selected global default model (a non-empty one is used as is),
and non-null preset `temperature`/`max_tokens` override the module defaults
while null ones leave them visible. -/
theorem preset_override_amended (g : ConfigPy) (store : PresetStore) (u : UserSettings)
    (p : LLMPreset) (gid : Option Int)
    (hmod : truthyI u.summary_llm_preset_id = true)
    (hstore : store.llm (u.summary_llm_preset_id.getD 0) = some p)
    (hkey : orStrip p.api_key "" ≠ "")
    (hbase : orStrip p.base_url "" ≠ "") :
    (paper_summary.make_client_for_user g store (some u)).toOption.map
        (fun c => (c.api_key, c.base_url, c.model, c.temperature, c.max_tokens)) =
      some (orStrip p.api_key "", orStrip p.base_url "",
        (if orStrip p.model "" = "" then
           (if g.SLLM = 2 then g.summary_model_2
            else if g.SLLM = 3 then g.summary_model_3
            else g.summary_model)
         else orStrip p.model ""),
        p.temperature.getD g.summary_temperature,
        p.max_tokens.getD g.summary_max_tokens) ∧
    paper_summary.make_client_for_user g store (some { u with llm_preset_id := gid }) =
      paper_summary.make_client_for_user g store (some u) := by
  have hpid : pyOrI u.summary_llm_preset_id u.llm_preset_id = u.summary_llm_preset_id := by
    simp [pyOrI, hmod]
  have hpid2 : pyOrI u.summary_llm_preset_id gid = u.summary_llm_preset_id := by
    simp [pyOrI, hmod]
  constructor
  · simp only [paper_summary.make_client_for_user, hpid, hmod, if_true, hstore]
    rw [ps_finalize_of_key_base g _ _ _ _ hkey hbase]
    have hcore := ps_resolve_prompt_core store u
      { system_prompt := g.system_prompt
        temperature := p.temperature.getD g.summary_temperature
        max_tokens := p.max_tokens.getD g.summary_max_tokens
        input_hard_limit := p.input_hard_limit.getD g.summary_input_hard_limit
        input_safety_margin := p.input_safety_margin.getD g.summary_input_safety_margin
        api_key := "", base_url := "", model := "" }
    simp [Except.toOption, hcore.1, hcore.2.1]
  · simp only [paper_summary.make_client_for_user, paper_summary.resolve_prompt]
    simp [hpid, hpid2, hmod]

/-- Witness for C2 amended: preset 2 resolves to its own stripped key and
base URL, the `SLLM=1` default model (the preset's is null), the preset's
temperature 0 and the default max_tokens; replacing the generic preset id
changes nothing. -/
theorem preset_override_amended_witness :
    (paper_summary.make_client_for_user demoConfig c2store (some c2user)).toOption.map
        (fun c => (c.api_key, c.base_url, c.model, c.temperature, c.max_tokens)) =
      some (orStrip c2preset.api_key "", orStrip c2preset.base_url "",
        (if orStrip c2preset.model "" = "" then
           (if demoConfig.SLLM = 2 then demoConfig.summary_model_2
            else if demoConfig.SLLM = 3 then demoConfig.summary_model_3
            else demoConfig.summary_model)
         else orStrip c2preset.model ""),
        c2preset.temperature.getD demoConfig.summary_temperature,
        c2preset.max_tokens.getD demoConfig.summary_max_tokens) ∧
    paper_summary.make_client_for_user demoConfig c2store (some { c2user with llm_preset_id := some 7 }) =
      paper_summary.make_client_for_user demoConfig c2store (some c2user) :=
  preset_override_amended demoConfig c2store c2user c2preset (some 7)
    (by decide) (by decide) (by decide) (by decide)

/-! ### C3 — the five resolvers do not implement one algorithm -/

/-- C3 counterexample: with identical stored settings (all module preset-id
fields select preset 1), an identical preset state, and module defaults
matched across modules (`demoConfig`), `paper_summary` resolves the api key
to the global `"GKEY"` while `llm_select_theme` resolves it to the preset's
`"userkey"` (and their models differ likewise) — so the five call sites do
not apply the same precedence algorithm differing only in defaults and key
prefixes. -/
theorem resolver_uniformity_counterexample :
    demoUser.summary_llm_preset_id = demoUser.theme_select_llm_preset_id ∧
    demoConfig.summary_base_url = demoConfig.theme_select_base_url ∧
    demoConfig.summary_model = demoConfig.theme_select_model ∧
    demoConfig.summary_temperature = demoConfig.theme_select_temperature ∧
    demoConfig.summary_max_tokens = demoConfig.theme_select_max_tokens ∧
    demoConfig.qwen_api_key = "GKEY" ∧ demoConfig.SLLM = 1 ∧
    (paper_summary.make_client_for_user demoConfig demoStore (some demoUser)).toOption.map
      (fun c => (c.api_key, c.model)) = some ("GKEY", "gmodel") ∧
    (llm_select_theme.make_client_for_user demoConfig demoStore (some demoUser)).toOption.map
      (fun c => (c.api_key, c.model)) = some ("userkey", "umodel") ∧
    ("GKEY" : String) ≠ "userkey" := by
  refine ⟨by decide, by decide, by decide, by decide, by decide, by decide, by decide,
    by decide, by decide, by decide⟩

/-- With the `summary_limit_*` globals equal to the `summary_*` globals,
the two credential fallbacks coincide. -/
theorem sl_fallback_agree (g : ConfigPy) (key base model : String)
    (h1 : g.summary_limit_base_url = g.summary_base_url)
    (h2 : g.summary_limit_model = g.summary_model)
    (h3 : g.summary_limit_url_2 = g.summary_base_url_2)
    (h4 : g.summary_limit_gptgod_apikey = g.summary_gptgod_apikey)
    (h5 : g.summary_limit_model_2 = g.summary_model_2)
    (h6 : g.summary_limit_url_3 = g.summary_base_url_3)
    (h7 : g.summary_limit_apikey_3 = g.summary_apikey_3)
    (h8 : g.summary_limit_model_3 = g.summary_model_3) :
    summary_limit.fallback g key base model = paper_summary.fallback g key base model := by
  unfold summary_limit.fallback paper_summary.fallback
  rw [h1, h2, h3, h4, h5, h6, h7, h8]

/-- Lemma: `summary_limit.user_extras` touches neither temperature nor max_tokens. -/
theorem sl_user_extras_core (u : UserSettings) (cfg : summary_limit.ResolvedCfg) :
    (summary_limit.user_extras u cfg).temperature = cfg.temperature ∧
    (summary_limit.user_extras u cfg).max_tokens = cfg.max_tokens := by
  simp [summary_limit.user_extras]

/-- The two finalisation chains agree on the resolved core whenever the
module globals are matched and the incoming configs agree on the core. -/
theorem finalize_core_agree (g : ConfigPy) (cfgP : paper_summary.ResolvedCfg)
    (cfgS : summary_limit.ResolvedCfg) (key base model : String)
    (h1 : g.summary_limit_base_url = g.summary_base_url)
    (h2 : g.summary_limit_model = g.summary_model)
    (h3 : g.summary_limit_url_2 = g.summary_base_url_2)
    (h4 : g.summary_limit_gptgod_apikey = g.summary_gptgod_apikey)
    (h5 : g.summary_limit_model_2 = g.summary_model_2)
    (h6 : g.summary_limit_url_3 = g.summary_base_url_3)
    (h7 : g.summary_limit_apikey_3 = g.summary_apikey_3)
    (h8 : g.summary_limit_model_3 = g.summary_model_3)
    (ht : cfgS.temperature = cfgP.temperature)
    (hm : cfgS.max_tokens = cfgP.max_tokens) :
    (summary_limit.finalize g cfgS key base model).toOption.map
        (fun c => (c.api_key, c.base_url, c.model, c.temperature, c.max_tokens)) =
    (paper_summary.finalize g cfgP key base model).toOption.map
        (fun c => (c.api_key, c.base_url, c.model, c.temperature, c.max_tokens)) := by
  unfold summary_limit.finalize paper_summary.finalize
  rw [sl_fallback_agree g key base model h1 h2 h3 h4 h5 h6 h7 h8]
  rcases hfb : paper_summary.fallback g key base model with ⟨k, b, m⟩
  by_cases hk : k = ""
  · simp [hk, Except.toOption]
  · by_cases hb : b = ""
    · simp [hk, hb, Except.toOption]
    · simp [hk, hb, Except.toOption, ht, hm]

/-- C3 amended: `paper_summary` and `summary_limit` do implement the same
precedence algorithm, differing only in their module default values and
their module preset-id key prefix: with the `summary_limit_*` defaults
matched to the `summary_*` ones and the two module preset-id fields equal,
the two resolvers produce the same resolved core
(api_key, base_url, model, temperature, max_tokens) for every stored user
settings and preset state — whereas `llm_select_theme`, `pdf_info` and
`paper_assets` overlay fields one by one onto the defaults and diverge from
this algorithm (see the counterexample). -/
theorem resolver_ps_sl_core_agree (g : ConfigPy) (store : PresetStore) (u : UserSettings)
    (h1 : g.summary_limit_base_url = g.summary_base_url)
    (h2 : g.summary_limit_model = g.summary_model)
    (h3 : g.summary_limit_url_2 = g.summary_base_url_2)
    (h4 : g.summary_limit_gptgod_apikey = g.summary_gptgod_apikey)
    (h5 : g.summary_limit_model_2 = g.summary_model_2)
    (h6 : g.summary_limit_url_3 = g.summary_base_url_3)
    (h7 : g.summary_limit_apikey_3 = g.summary_apikey_3)
    (h8 : g.summary_limit_model_3 = g.summary_model_3)
    (h9 : g.summary_limit_temperature = g.summary_temperature)
    (h10 : g.summary_limit_max_tokens = g.summary_max_tokens)
    (hid : u.summary_limit_llm_preset_id = u.summary_llm_preset_id) :
    (summary_limit.build_effective_cfg g store (some u)).toOption.map
        (fun c => (c.api_key, c.base_url, c.model, c.temperature, c.max_tokens)) =
    (paper_summary.make_client_for_user g store (some u)).toOption.map
        (fun c => (c.api_key, c.base_url, c.model, c.temperature, c.max_tokens)) := by
  simp only [summary_limit.build_effective_cfg, paper_summary.make_client_for_user, hid]
  cases hq : (if truthyI (pyOrI u.summary_llm_preset_id u.llm_preset_id) = true
      then store.llm ((pyOrI u.summary_llm_preset_id u.llm_preset_id).getD 0)
      else none) with
  | none =>
    refine finalize_core_agree g _ _ _ _ _ h1 h2 h3 h4 h5 h6 h7 h8 ?_ ?_
    · rw [(sl_user_extras_core u _).1, (ps_resolve_prompt_core store u _).1]
      simp [h9]
    · rw [(sl_user_extras_core u _).2, (ps_resolve_prompt_core store u _).2.1]
      simp [h10]
  | some p =>
    refine finalize_core_agree g _ _ _ _ _ h1 h2 h3 h4 h5 h6 h7 h8 ?_ ?_
    · rw [(sl_user_extras_core u _).1, (ps_resolve_prompt_core store u _).1]
      simp [h9]
    · rw [(sl_user_extras_core u _).2, (ps_resolve_prompt_core store u _).2.1]
      simp [h10]

/-- Witness for C3 amended: on `demoConfig` (matched module defaults),
`demoStore` and `demoUser`, the two resolvers produce the same resolved
core. -/
theorem resolver_ps_sl_core_agree_witness :
    (summary_limit.build_effective_cfg demoConfig demoStore (some demoUser)).toOption.map
        (fun c => (c.api_key, c.base_url, c.model, c.temperature, c.max_tokens)) =
    (paper_summary.make_client_for_user demoConfig demoStore (some demoUser)).toOption.map
        (fun c => (c.api_key, c.base_url, c.model, c.temperature, c.max_tokens)) :=
  resolver_ps_sl_core_agree demoConfig demoStore demoUser (by decide) (by decide)
    (by decide) (by decide) (by decide) (by decide) (by decide) (by decide)
    (by decide) (by decide) (by decide)

end AI4Paper
